import Mathlib

/-!
Formal model of `src/http_server.py` (RustWebRTC repository): a 22-line
Python script that starts a single-threaded HTTPS static-file server.

The script itself is straight-line configuration glue:
  line  5: `IP_ADDRESS = "YOURADRESS"`
  line  6: `PORT = 8000`
  line  9: `handler = http.server.SimpleHTTPRequestHandler`
  line 12: `httpd = http.server.HTTPServer((IP_ADDRESS, PORT), handler)`  (binds)
  line 15: `context = ssl.SSLContext(ssl.PROTOCOL_TLS_SERVER)`
  line 16: `context.load_cert_chain(certfile="cert.pem", keyfile="key.pem")`
  line 19: `httpd.socket = context.wrap_socket(httpd.socket, server_side=True)`
  line 21: `print(f"Serving on https://{IP_ADDRESS}:{PORT}")`
  line 22: `httpd.serve_forever()`

The startup sequence is embedded as a trace of events over an environment
recording whether the bind and the certificate load succeed; an exception
raised by a failing step is modelled as an `exitNonZero` event (an uncaught
Python exception at module level terminates the interpreter with a non-zero
exit status and a traceback diagnostic), cutting the trace short.

The per-request behaviour (path resolution, directory listing, file serving,
content-type guessing) and the accept loop live in the Python standard
library (`http.server.SimpleHTTPRequestHandler`, `socketserver`), which is
not part of this repository; those parts are modelled from the spec, and
each such definition is marked `Modelled from the spec:` in its doc comment.
-/

/-- Configuration constant from `src/http_server.py` line 5: the bind
address ships as the literal placeholder string. -/
def IP_ADDRESS : String := "YOURADRESS"

/-- Configuration constant from `src/http_server.py` line 6. -/
def PORT : Nat := 8000

/-- Error classes of the spec's error taxonomy for fatal startup failures
(spec section 7), plus `configError` for the configuration-error diagnostic
the spec asks for on a placeholder bind address (spec sections 6 and 9);
the source never produces `configError`. -/
inductive StartupError where
  | bindError
  | certificateLoadError
  | configError
  deriving DecidableEq, BEq

/-- Observable startup events of the module body of `src/http_server.py`:
the bind attempt of line 12, the certificate load of line 16, the socket
wrap of line 19, the `print` of line 21, entry into `serve_forever` of
line 22, and process termination with non-zero exit status from an uncaught
exception. -/
inductive Event where
  | bindAttempt (addr : String) (port : Nat)
  | certLoadAttempt (cert key : String)
  | wrapSocket
  | stdout (msg : String)
  | enterServe
  | exitNonZero (err : StartupError)
  deriving DecidableEq, BEq

/-- Environment of a startup run: whether the configured address/port can
be bound (line 12 succeeds) and whether `cert.pem`/`key.pem` exist, are
readable and are a well-formed matching pair (line 16 succeeds). -/
structure Env where
  bindOk : Bool
  certOk : Bool

/-- The message printed by `src/http_server.py` line 21:
`f"Serving on https://{IP_ADDRESS}:{PORT}"`. -/
def servingMessage : String :=
  "Serving on https://" ++ IP_ADDRESS ++ ":" ++ toString PORT

/-- The module body of `src/http_server.py` as a trace of events: bind
(line 12), then certificate load (line 16), then socket wrap (line 19),
print (line 21) and the serve loop (line 22); a failing step raises an
uncaught exception, which terminates the process with a non-zero exit
status before any later line runs. -/
def startup (env : Env) : List Event :=
  Event.bindAttempt IP_ADDRESS PORT ::
    if env.bindOk then
      Event.certLoadAttempt "cert.pem" "key.pem" ::
        if env.certOk then
          [Event.wrapSocket, Event.stdout servingMessage, Event.enterServe]
        else
          [Event.exitNonZero StartupError.certificateLoadError]
    else
      [Event.exitNonZero StartupError.bindError]

/-- `needle` occurs as a contiguous substring of `hay` (on character
lists). -/
def containsSub (needle : List Char) : List Char → Bool
  | [] => needle.isEmpty
  | c :: t => needle.isPrefixOf (c :: t) || containsSub needle t

/-- String containment, used to state that the startup banner mentions
the scheme, the configured address and the configured port. -/
def strContains (needle hay : String) : Bool :=
  containsSub needle.data hay.data

/-- Claim C3: if the certificate chain or private key file is missing,
unreadable or malformed, startup fails: the trace ends in a non-zero
process exit with the certificate diagnostic, and the serve loop (where
connections are accepted) is never entered. -/
theorem cert_failure_fatal (env : Env)
    (hb : env.bindOk = true) (hc : env.certOk = false) :
    startup env =
      [Event.bindAttempt IP_ADDRESS PORT,
        Event.certLoadAttempt "cert.pem" "key.pem",
        Event.exitNonZero StartupError.certificateLoadError] ∧
    (startup env).contains Event.enterServe = false := by
  have h1 : startup env =
      [Event.bindAttempt IP_ADDRESS PORT,
        Event.certLoadAttempt "cert.pem" "key.pem",
        Event.exitNonZero StartupError.certificateLoadError] := by
    simp [startup, hb, hc]
  exact ⟨h1, by rw [h1]; decide⟩

/-- Witness for C3 at the concrete environment where the bind succeeds but
the certificate load fails. -/
theorem cert_failure_fatal_witness :
    startup ⟨true, false⟩ =
      [Event.bindAttempt IP_ADDRESS PORT,
        Event.certLoadAttempt "cert.pem" "key.pem",
        Event.exitNonZero StartupError.certificateLoadError] ∧
    (startup ⟨true, false⟩).contains Event.enterServe = false :=
  cert_failure_fatal ⟨true, false⟩ rfl rfl

/-- Claim C5: if the configured address/port cannot be bound (invalid
address or port already in use), startup fails: the trace ends in a
non-zero process exit with the bind diagnostic and the serve loop is never
entered. -/
theorem bind_failure_fatal (env : Env) (hb : env.bindOk = false) :
    startup env =
      [Event.bindAttempt IP_ADDRESS PORT,
        Event.exitNonZero StartupError.bindError] ∧
    (startup env).contains Event.enterServe = false := by
  have h1 : startup env =
      [Event.bindAttempt IP_ADDRESS PORT,
        Event.exitNonZero StartupError.bindError] := by
    simp [startup, hb]
  exact ⟨h1, by rw [h1]; decide⟩

/-- Witness for C5 at the concrete environment where the bind fails. -/
theorem bind_failure_fatal_witness :
    startup ⟨false, true⟩ =
      [Event.bindAttempt IP_ADDRESS PORT,
        Event.exitNonZero StartupError.bindError] ∧
    (startup ⟨false, true⟩).contains Event.enterServe = false :=
  bind_failure_fatal ⟨false, true⟩ rfl

/-- Claim C6: on successful startup the module performs, in this order:
bind the listening socket (line 12), load the certificate chain and key
(line 16), wrap the socket with the TLS context (line 19), print to
standard output a message containing `https://`, the configured address and
the configured port (line 21), and enter the serve loop (line 22). -/
theorem startup_sequence_and_message (env : Env)
    (hb : env.bindOk = true) (hc : env.certOk = true) :
    startup env =
      [Event.bindAttempt IP_ADDRESS PORT,
        Event.certLoadAttempt "cert.pem" "key.pem",
        Event.wrapSocket,
        Event.stdout servingMessage,
        Event.enterServe] ∧
    strContains "https://" servingMessage = true ∧
    strContains IP_ADDRESS servingMessage = true ∧
    strContains (toString PORT) servingMessage = true := by
  refine ⟨by simp [startup, hb, hc], by decide, by decide, by decide⟩

/-- Witness for C6 at the concrete environment where both the bind and the
certificate load succeed. -/
theorem startup_sequence_and_message_witness :
    startup ⟨true, true⟩ =
      [Event.bindAttempt IP_ADDRESS PORT,
        Event.certLoadAttempt "cert.pem" "key.pem",
        Event.wrapSocket,
        Event.stdout servingMessage,
        Event.enterServe] ∧
    strContains "https://" servingMessage = true ∧
    strContains IP_ADDRESS servingMessage = true ∧
    strContains (toString PORT) servingMessage = true :=
  startup_sequence_and_message ⟨true, true⟩ rfl rfl

/-- Counterexample to claim C8: with the bind address left as the shipped
placeholder `"YOURADRESS"`, the program does not fail fast with a
configuration-error message; its very first action is an attempt to bind
the placeholder string literally, no configuration-error diagnostic ever
appears in the trace, and the failure actually reported is a plain bind
error. -/
theorem placeholder_bound_literally_counterexample :
    IP_ADDRESS = "YOURADRESS" ∧
    (startup ⟨false, true⟩).head? =
      some (Event.bindAttempt "YOURADRESS" 8000) ∧
    (startup ⟨false, true⟩).contains
      (Event.exitNonZero StartupError.configError) = false ∧
    (startup ⟨false, true⟩).contains
      (Event.exitNonZero StartupError.bindError) = true := by
  decide

/-- Claim C8 as amended: the program performs no placeholder check — in
every environment its first action is to attempt to bind the literal
placeholder string, and no configuration-error diagnostic is ever emitted;
since the placeholder is not a resolvable address the bind fails, and the
process exits non-zero with a bind-related diagnostic. -/
theorem placeholder_bound_literally_amended :
    (∀ env : Env, (startup env).head? =
      some (Event.bindAttempt "YOURADRESS" 8000)) ∧
    (∀ env : Env, (startup env).contains
      (Event.exitNonZero StartupError.configError) = false) ∧
    startup ⟨false, true⟩ =
      [Event.bindAttempt "YOURADRESS" 8000,
        Event.exitNonZero StartupError.bindError] ∧
    startup ⟨false, false⟩ =
      [Event.bindAttempt "YOURADRESS" 8000,
        Event.exitNonZero StartupError.bindError] := by
  refine ⟨?_, ?_, by decide, by decide⟩
  · intro env
    obtain ⟨b, c⟩ := env
    cases b <;> cases c <;> decide
  · intro env
    obtain ⟨b, c⟩ := env
    cases b <;> cases c <;> decide

/-- Modelled from the spec: the request handler delegated to the standard
library on `src/http_server.py` line 9 is not part of this repository; the
filesystem it serves is abstracted as the root directory's view of
root-relative paths (lists of path components): whether a path is a
directory, the bytes of the regular readable file at a path (`none` when
the path does not exist or is not accessible), and the immediate entries
of a directory. -/
structure FS where
  isDir : List String → Bool
  readFile : List String → Option (List Nat)
  entries : List String → List String

/-- Modelled from the spec: one HTTP/1.x request read from a connection —
either malformed (spec: "malformed requests return status 400") or a
request for a URL path. -/
inductive Request where
  | malformed
  | get (path : String)
  deriving DecidableEq, BEq

/-- Modelled from the spec: the body of a response — a short error page, a
generated HTML listing of a directory's immediate entries, or the bytes of
a served file. -/
inductive Body where
  | errorPage (status : Nat)
  | listing (entries : List String)
  | fileBytes (bs : List Nat)
  deriving DecidableEq, BEq

/-- Modelled from the spec: the observable parts of an HTTP response —
status code, content type and body. -/
structure Response where
  status : Nat
  contentType : Option String
  body : Body
  deriving DecidableEq, BEq

/-- Whether a body is the contents of a file. -/
def isFileBody : Body → Bool
  | Body.fileBytes _ => true
  | _ => false

/-- Split a character list at `/`, dropping empty segments. -/
def splitSegs (cur : List Char) : List Char → List String
  | [] => if cur.isEmpty then [] else [String.mk cur.reverse]
  | ch :: rest =>
    if ch = '/' then
      (if cur.isEmpty then [] else [String.mk cur.reverse]) ++ splitSegs [] rest
    else
      splitSegs (ch :: cur) rest

/-- The segments of a URL path: the non-empty `/`-separated components. -/
def pathSegments (p : String) : List String :=
  splitSegs [] p.data

/-- Modelled from the spec: normalization of path segments against the
root — `.` is dropped, `..` pops the last kept segment, and a `..` with
nothing left to pop means the path resolves outside the root and is
rejected (`none`). `acc` holds the kept segments in reverse. -/
def normalizeSegs (acc : List String) : List String → Option (List String)
  | [] => some acc.reverse
  | s :: rest =>
    if s = "." then
      normalizeSegs acc rest
    else if s = ".." then
      match acc with
      | [] => none
      | _ :: acc2 => normalizeSegs acc2 rest
    else
      normalizeSegs (s :: acc) rest

/-- Modelled from the spec: "resolve the requested path against the
working directory (rejecting path traversal outside the root)" — the
root-relative components of the requested path, or `none` when the path
resolves outside the root. -/
def resolvePath (p : String) : Option (List String) :=
  normalizeSegs [] (pathSegments p)

/-- The extension of a file name: the characters after the last `.`, if
any dot occurs. -/
def lastExt : List Char → Option (List Char) → Option (List Char)
  | [], cur => cur
  | c :: rest, cur =>
    if c = '.' then
      lastExt rest (some [])
    else
      match cur with
      | none => lastExt rest none
      | some e => lastExt rest (some (e ++ [c]))

/-- The extension of a file name as a string, when present. -/
def extOf (name : String) : Option String :=
  match lastExt name.data none with
  | none => none
  | some e => some (String.mk e)

/-- Modelled from the spec: the extension-to-content-type table used to
guess a content type from the file extension. -/
def mimeTable : List (String × String) :=
  [("html", "text/html"), ("htm", "text/html"), ("txt", "text/plain"),
    ("css", "text/css"), ("js", "text/javascript"),
    ("json", "application/json"), ("png", "image/png"),
    ("jpg", "image/jpeg"), ("gif", "image/gif"), ("pdf", "application/pdf")]

/-- Modelled from the spec: "a content type guessed from the file
extension (falling back to an octet-stream type when unknown)". -/
def guessType (comps : List String) : String :=
  match comps.getLast? with
  | none => "application/octet-stream"
  | some name =>
    match extOf name with
    | none => "application/octet-stream"
    | some e =>
      match mimeTable.lookup e with
      | some t => t
      | none => "application/octet-stream"

/-- Modelled from the spec: the response of the standard file-serving
request handler (spec section 4.1) — 400 for a malformed request; 404 for
a path resolving outside the root (path traversal rejected); for an
in-root path, a 200 HTML listing of the immediate entries when the path is
a directory, the file's bytes with a guessed content type when it is a
regular readable file, and 404 when it does not exist or is not
accessible. -/
def handleRequest (fs : FS) (req : Request) : Response :=
  match req with
  | Request.malformed => ⟨400, none, Body.errorPage 400⟩
  | Request.get p =>
    match resolvePath p with
    | none => ⟨404, none, Body.errorPage 404⟩
    | some comps =>
      if fs.isDir comps then
        ⟨200, some "text/html", Body.listing (fs.entries comps)⟩
      else
        match fs.readFile comps with
        | some bs => ⟨200, some (guessType comps), Body.fileBytes bs⟩
        | none => ⟨404, none, Body.errorPage 404⟩

/-- Modelled from the spec: one accepted connection — either the TLS
handshake fails or is aborted by the client, or it succeeds and the
connection carries `none` (the client sends no further bytes and
disconnects) or one request. -/
inductive Conn where
  | handshakeFail
  | established (input : Option Request)
  deriving DecidableEq, BEq

/-- Modelled from the spec: the observable outcome of one accepted
connection — dropped after a failed handshake, closed after an
establishment with no request bytes, or answered with a response. -/
inductive ConnEvent where
  | dropped
  | closedNoRequest
  | responded (r : Response)
  deriving DecidableEq, BEq

/-- Modelled from the spec: handling of a single accepted connection — a
handshake failure drops the connection; an established connection with no
request bytes (client disconnected) is cleaned up without a response; an
established connection with a request is answered by the file-serving
handler. -/
def handleConn (fs : FS) : Conn → ConnEvent
  | Conn.handshakeFail => ConnEvent.dropped
  | Conn.established none => ConnEvent.closedNoRequest
  | Conn.established (some req) => ConnEvent.responded (handleRequest fs req)

/-- Modelled from the spec: the unbounded serve loop over a (prefix of the)
stream of accepted connections, handling each one in order. -/
def serveConns (fs : FS) (conns : List Conn) : List ConnEvent :=
  conns.map (handleConn fs)

/-- Modelled from the spec: the scheduling trace of the serve loop — each
connection `i` contributes a begin marker, its handling, and an end
marker. -/
inductive LoopEvent where
  | beginConn (i : Nat)
  | work (i : Nat) (e : ConnEvent)
  | endConn (i : Nat)
  deriving DecidableEq, BEq

/-- The trace contributed by handling connection number `i`. -/
def connTrace (fs : FS) (i : Nat) (c : Conn) : List LoopEvent :=
  [LoopEvent.beginConn i, LoopEvent.work i (handleConn fs c),
    LoopEvent.endConn i]

/-- Modelled from the spec: the full scheduling trace of the serve loop,
numbering connections from `i`. -/
def serveTrace (fs : FS) (i : Nat) : List Conn → List LoopEvent
  | [] => []
  | c :: rest => connTrace fs i c ++ serveTrace fs (i + 1) rest

/-- A trace is serial when at every point at most one connection is open:
a connection may begin only when none is open, work may only belong to the
open connection, a connection may end only if it is the open one, and no
connection is left open at the end. The state is the currently open
connection, if any. -/
def serialCheck : Option Nat → List LoopEvent → Bool
  | none, [] => true
  | some _, [] => false
  | none, LoopEvent.beginConn i :: rest => serialCheck (some i) rest
  | none, LoopEvent.work _ _ :: _ => false
  | none, LoopEvent.endConn _ :: _ => false
  | some i, LoopEvent.work j _ :: rest => (i == j) && serialCheck (some i) rest
  | some i, LoopEvent.endConn j :: rest => (i == j) && serialCheck none rest
  | some _, LoopEvent.beginConn _ :: _ => false

/-- Helper: the serve trace is serial from any starting connection
number. -/
theorem serveTrace_serialCheck (fs : FS) (conns : List Conn) :
    ∀ i : Nat, serialCheck none (serveTrace fs i conns) = true := by
  induction conns with
  | nil => intro i; rfl
  | cons c rest ih =>
    intro i
    simp [serveTrace, connTrace, serialCheck, ih]

/-- Claim C1: a request whose path resolves outside the root is answered
with status 404 and a short error body; the body is never the contents of
any file (in particular not of a file outside the root — the filesystem is
never read at all for such a path). -/
theorem path_traversal_rejected (fs : FS) (p : String)
    (h : resolvePath p = none) :
    handleRequest fs (Request.get p) = ⟨404, none, Body.errorPage 404⟩ ∧
    isFileBody (handleRequest fs (Request.get p)).body = false := by
  have h1 : handleRequest fs (Request.get p) =
      ⟨404, none, Body.errorPage 404⟩ := by
    simp [handleRequest, h]
  exact ⟨h1, by rw [h1]; rfl⟩

/-- A filesystem on which every path is a readable file: even over it, a
traversal path is answered 404 and no file body is returned. -/
def fsAllFiles : FS where
  isDir := fun _ => false
  readFile := fun _ => some [115]
  entries := fun _ => []

/-- Witness for C1 at the concrete path `/../../etc/passwd`, over a
filesystem on which every path is a readable file. -/
theorem path_traversal_rejected_witness :
    handleRequest fsAllFiles (Request.get "/../../etc/passwd") =
      ⟨404, none, Body.errorPage 404⟩ ∧
    isFileBody
      (handleRequest fsAllFiles (Request.get "/../../etc/passwd")).body =
      false :=
  path_traversal_rejected fsAllFiles "/../../etc/passwd" (by decide)

/-- Claim C2: for a request whose path resolves inside the root: a
directory is answered 200 with the HTML listing of its immediate entries;
a regular readable file is answered 200 with its on-disk bytes and a
content type guessed from its extension (octet-stream when unknown, by
definition of `guessType`); a path that does not exist or is not
accessible is answered 404. -/
theorem inroot_request_semantics (fs : FS) (p : String)
    (comps : List String) (h : resolvePath p = some comps) :
    (fs.isDir comps = true →
      handleRequest fs (Request.get p) =
        ⟨200, some "text/html", Body.listing (fs.entries comps)⟩) ∧
    (∀ bs, fs.isDir comps = false → fs.readFile comps = some bs →
      handleRequest fs (Request.get p) =
        ⟨200, some (guessType comps), Body.fileBytes bs⟩) ∧
    (fs.isDir comps = false → fs.readFile comps = none →
      handleRequest fs (Request.get p) = ⟨404, none, Body.errorPage 404⟩) := by
  refine ⟨fun hd => ?_, fun bs hd hf => ?_, fun hd hf => ?_⟩
  · simp [handleRequest, h, hd]
  · simp [handleRequest, h, hd, hf]
  · simp [handleRequest, h, hd, hf]

/-- A concrete filesystem for the in-root witness: the root holds a
directory `d` with two entries and a file `a.html` with known bytes. -/
def fsSample : FS where
  isDir := fun comps => comps == ["d"]
  readFile := fun comps =>
    if comps == ["a.html"] then some [104, 105] else none
  entries := fun comps => if comps == ["d"] then ["x.txt", "y.txt"] else []

/-- Witness for C2: over the concrete filesystem, `/a.html` resolves to
the in-root file, `guessType` maps it to `text/html`, and the response is
200 with the file's bytes. -/
theorem inroot_request_semantics_witness :
    resolvePath "/a.html" = some ["a.html"] ∧
    guessType ["a.html"] = "text/html" ∧
    handleRequest fsSample (Request.get "/a.html") =
      ⟨200, some (guessType ["a.html"]), Body.fileBytes [104, 105]⟩ :=
  ⟨by decide, by decide,
    (inroot_request_semantics fsSample "/a.html" ["a.html"]
      (by decide)).2.1 [104, 105] (by decide) (by decide)⟩

/-- Claim C4: a connection whose TLS handshake fails is dropped and the
serve loop continues: every connection accepted before it and every
connection accepted after it is still handled (the loop never terminates
the process — the serve-loop vocabulary has no process-exit outcome, and
the handled trace keeps exactly one outcome per connection). -/
theorem handshake_failure_recoverable (fs : FS) (pre post : List Conn) :
    serveConns fs (pre ++ Conn.handshakeFail :: post) =
      serveConns fs pre ++ ConnEvent.dropped :: serveConns fs post ∧
    (serveConns fs (pre ++ Conn.handshakeFail :: post)).length =
      pre.length + 1 + post.length := by
  constructor
  · simp [serveConns, handleConn]
  · simp [serveConns]
    omega

/-- Claim C9: a client that completes the handshake but sends no bytes
before disconnecting neither crashes nor hangs the loop: its connection is
cleaned up without a response and every later connection is still
handled. -/
theorem silent_client_cleanup (fs : FS) (pre post : List Conn) :
    serveConns fs (pre ++ Conn.established none :: post) =
      serveConns fs pre ++ ConnEvent.closedNoRequest :: serveConns fs post ∧
    (serveConns fs (pre ++ Conn.established none :: post)).length =
      pre.length + 1 + post.length := by
  constructor
  · simp [serveConns, handleConn]
  · simp [serveConns]
    omega

/-- Claim C7: connections are handled strictly serially — in the serve
loop's scheduling trace at most one connection is ever open, each
connection is fully handled and closed before the next one begins, and
none is left open. -/
theorem connections_serial (fs : FS) (conns : List Conn) :
    serialCheck none (serveTrace fs 0 conns) = true :=
  serveTrace_serialCheck fs conns 0
